import Mathlib

/-!
Verification development for the IPL2024 batting-statistics pipeline
(`streamlit_2024_batters.py`).

The script ingests cricsheet ball-by-ball JSON match records, flattens them
into one row per delivery, derives per-(match, batter) running statistics with
pandas, and reduces them to per-match summaries plus season totals inside
`create_player_performance_chart`.

Modelling conventions:
* Nested JSON records are embedded as Lean structures whose fields are
  `Option`-valued exactly where the Python code performs `dict.get` with a
  default; `none` is the absent key.
* A Python statement that can raise an uncaught exception (an `IndexError`
  from `[0]` on an empty list) is modelled by an `Option` result, `none`
  standing for the raised exception aborting the run.
* Machine integers are `Nat` (the counts and run values in the data are
  non-negative and far from any overflow).
* pandas float arithmetic is idealised over `ℚ`.  Division of integer columns
  by zero in pandas yields a non-finite float (`inf` or `NaN`) without raising;
  a strike-rate value is therefore `Option ℚ`, with `none` standing for that
  non-finite result.  `.round(2)` is modelled by `round2`; numpy resolves
  exact ties by rounding half to even and computes in binary floating point,
  an idealisation noted here because no statement below depends on tie cases.
-/

/-- One entry of a wicket's `fielders` list; the name is read with
`fielder.get('name', '')`, hence optional. -/
structure FielderEntry where
  name : Option String
deriving DecidableEq, Repr

/-- One entry of a delivery's `wickets` list. -/
structure WicketEntry where
  kind : Option String
  player_out : Option String
  fielders : Option (List FielderEntry)
deriving DecidableEq, Repr

/-- The `runs` sub-structure of a delivery. -/
structure RunsDetail where
  batter : Option Nat
  extras : Option Nat
  total : Option Nat
deriving DecidableEq, Repr

instance : Inhabited RunsDetail := ⟨⟨none, none, none⟩⟩

/-- The `extras` sub-structure of a delivery (breakdown by kind). -/
structure ExtrasDetail where
  wides : Option Nat
  noballs : Option Nat
  legbyes : Option Nat
  byes : Option Nat
deriving DecidableEq, Repr

/-- One delivery of an over, as found in the JSON. -/
structure DeliveryData where
  batter : Option String
  bowler : Option String
  non_striker : Option String
  runs : Option RunsDetail
  extras : Option ExtrasDetail
  wickets : Option (List WicketEntry)
deriving DecidableEq, Repr

/-- One over of an innings. -/
structure OverData where
  over : Option Nat
  deliveries : Option (List DeliveryData)
deriving DecidableEq, Repr

/-- One innings entry of a match record. -/
structure InningsData where
  team : Option String
  overs : Option (List OverData)
deriving DecidableEq, Repr

/-- The `toss` sub-structure of the info section. -/
structure TossData where
  decision : Option String
deriving DecidableEq, Repr

/-- The `info` section of a match record.  The Python code reads
`match_data.get('info', {})` and then skips the record `if not match_info`,
treating a missing and an empty info dict identically; both are modelled as
`none` at the enclosing record. -/
structure MatchInfo where
  dates : Option (List String)
  season : Option String
  venue : Option String
  teams : Option (List String)
  toss : Option TossData
deriving DecidableEq, Repr

/-- A decoded match record (the result of `json.load`). -/
structure MatchData where
  info : Option MatchInfo
  innings : Option (List InningsData)
deriving DecidableEq, Repr

/-- One input file: either undecodable JSON (`json.JSONDecodeError` is caught
and the file skipped) or a decoded record.  `path` is the file path, used for
the match identifier and the log lines. -/
inductive RawFile where
  | malformed (path : String)
  | parsed (path : String) (data : MatchData)
deriving DecidableEq, Repr

/-- One flattened delivery row of the `all_balls` table (the `ball_data` dict
built in the ingestion loop). -/
structure BallRow where
  match_id : String
  date : String
  season : String
  venue : String
  batting_team : String
  bowling_team : String
  over : Nat
  batter : String
  bowler : String
  non_striker : String
  runs_batter : Nat
  extras : Nat
  total_runs : Nat
  wides : Nat
  noballs : Nat
  legbyes : Nat
  byes : Nat
  wicket : Nat
  wicket_type : String
  player_out : String
  fielder : String
deriving DecidableEq, Repr

/-- Builds the `ball_data` row for one delivery, mirroring lines 61-98 of the
source.  Returns `none` exactly when `delivery['wickets'][0]` raises an
`IndexError`, i.e. when the `wickets` key is present with an empty list. -/
def ball_data (matchId date season venue batting_team bowling_team : String)
    (over_num : Nat) (d : DeliveryData) : Option BallRow :=
  let base : BallRow :=
    { match_id := matchId
      date := date
      season := season
      venue := venue
      batting_team := batting_team
      bowling_team := bowling_team
      over := over_num
      batter := d.batter.getD ""
      bowler := d.bowler.getD ""
      non_striker := d.non_striker.getD ""
      runs_batter := (d.runs.getD default).batter.getD 0
      extras := (d.runs.getD default).extras.getD 0
      total_runs := (d.runs.getD default).total.getD 0
      wides := match d.extras with
        | none => 0
        | some e => e.wides.getD 0
      noballs := match d.extras with
        | none => 0
        | some e => e.noballs.getD 0
      legbyes := match d.extras with
        | none => 0
        | some e => e.legbyes.getD 0
      byes := match d.extras with
        | none => 0
        | some e => e.byes.getD 0
      wicket := 0
      wicket_type := ""
      player_out := ""
      fielder := "" }
  match d.wickets with
  | none => some base
  | some [] => none
  | some (w :: ws) =>
      some { base with
        wicket := (w :: ws).length
        wicket_type := w.kind.getD ""
        player_out := w.player_out.getD ""
        fielder := match w.fielders with
          | none => ""
          | some [] => ""
          | some (f :: _) => f.name.getD "" }

/-- The match identifier derived from the file path:
`os.path.basename(file_path).split('.')[0]`. -/
def matchIdOfPath (path : String) : String :=
  ((((path.splitOn "/").getLastD "").splitOn ".").headD "")

/-- Processes one input file exactly as one iteration of the ingestion loop
(lines 27-100): the result is `none` when the iteration raises an uncaught
exception, and otherwise the pair of printed log lines and emitted
`ball_data` rows. -/
def process_file (f : RawFile) : Option (List String × List BallRow) :=
  match f with
  | .malformed path => some (["Error reading " ++ path], [])
  | .parsed path d =>
    match d.info with
    | none =>
        some (["Warning: info key is missing in match data from " ++ path], [])
    | some info =>
      match info.dates.getD [""] with
      | [] => none
      | match_date :: _ =>
        let season := info.season.getD ""
        let venue := info.venue.getD "Unknown Venue"
        let teams := info.teams.getD []
        if teams.length < 2 then
          some (["Warning: Not enough teams found in match data from " ++ path], [])
        else
          let rows := (d.innings.getD []).mapM (fun inn =>
            let batting_team := inn.team.getD ""
            let bowling_team :=
              if teams.getD 1 "" = batting_team then teams.getD 0 ""
              else teams.getD 1 ""
            (inn.overs.getD []).mapM (fun o =>
              let over_num := o.over.getD 0
              (o.deliveries.getD []).mapM (fun dv =>
                ball_data (matchIdOfPath path) match_date season venue
                  batting_team bowling_team over_num dv)))
          match rows with
          | none => none
          | some inningsRows => some ([], (inningsRows.map (fun l => l.flatten)).flatten)

/-- The full ingestion loop accumulating `all_balls` over every input file;
`none` models the script aborting on an uncaught exception. -/
def all_balls : List RawFile → Option (List String × List BallRow)
  | [] => some ([], [])
  | f :: fs =>
    match process_file f with
    | none => none
    | some (lg, ev) =>
      match all_balls fs with
      | none => none
      | some (lgs, evs) => some (lg ++ lgs, ev ++ evs)

/-! ### Player-name matching

`data['batter'].str.contains(player_name, case=False, na=False)` compiles the
query with `re.IGNORECASE` and applies `re.search`.  The model below covers the
fragment of patterns made of literal characters and the metacharacter `'.'`
(which in Python matches any character except a newline); the theorems that
quantify over query strings restrict to this fragment.  Case-insensitivity is
modelled by ASCII lowercasing of both sides.  Batter values in the table are
always strings here, so `na=False` never fires. -/

/-- One token of a compiled pattern: a literal character or the `'.'`
metacharacter. -/
inductive RTok where
  | lit (c : Char)
  | dot
deriving DecidableEq, Repr

/-- Whether one pattern token matches one character (case-insensitively for
literals; `'.'` matches anything except a newline). -/
def tokMatches : RTok → Char → Bool
  | .lit l, c => l.toLower == c.toLower
  | .dot, c => c != '\n'

/-- Whether the token list matches at the very start of the character list
(consuming a leading fragment of it). -/
def toksMatchHere : List RTok → List Char → Bool
  | [], _ => true
  | _ :: _, [] => false
  | t :: ts, c :: cs => tokMatches t c && toksMatchHere ts cs

/-- `re.search`: the pattern matches starting at some position of the string
(every suffix, including the empty one, is a candidate start). -/
def rsearch (p : List RTok) (s : List Char) : Bool :=
  s.tails.any (fun t => toksMatchHere p t)

/-- Compiles a query string in the modelled fragment: `'.'` becomes the
any-character token, every other character a literal. -/
def compilePattern (q : String) : List RTok :=
  q.toList.map (fun c => if c = '.' then RTok.dot else RTok.lit c)

/-- Characters that Python `re` treats as plain literals. -/
def plainRegexChar (c : Char) : Bool :=
  !(c ∈ ['.', '^', '$', '*', '+', '?', '\x7b', '\x7d', '[', ']', '(', ')', '|', '\\'])

/-- A query string inside the modelled pattern fragment: plain literals and
`'.'` only. -/
def modelledPattern (q : String) : Bool :=
  q.toList.all (fun c => plainRegexChar c || c = '.')

/-- The player filter of line 137: case-insensitive regex search of the query
inside the batter name. -/
def batterMatches (q : String) (name : String) : Bool :=
  rsearch (compilePattern q) name.toList

/-- Stated from the spec wording, for comparison with `batterMatches`:
case-insensitive substring containment of the query in the batter name. -/
def substrCI (q name : String) : Bool :=
  decide ((q.toList.map Char.toLower) <:+: (name.toList.map Char.toLower))

/-! ### String ordering

pandas sorts string columns by ordinary string comparison; dates, converted by
`pd.to_datetime`, are ISO `yyyy-mm-dd` strings whose chronological order is
their character-wise order.  The comparator below is character-wise
lexicographic order on the characters of the strings. -/

/-- Lexicographic strict order on character lists. -/
def listCharLt : List Char → List Char → Bool
  | [], [] => false
  | [], _ :: _ => true
  | _ :: _, [] => false
  | a :: as, b :: bs => a < b || (a == b && listCharLt as bs)

/-- Strict lexicographic order on strings. -/
def strLt (a b : String) : Prop := listCharLt a.toList b.toList = true

instance : DecidableRel strLt := fun a b =>
  inferInstanceAs (Decidable (listCharLt a.toList b.toList = true))

/-- Non-strict lexicographic order on strings. -/
def strLe (a b : String) : Prop := strLt a b ∨ a = b

instance : DecidableRel strLe := fun a b =>
  inferInstanceAs (Decidable (strLt a b ∨ a = b))

/-- Lexicographic lifting of an order through a leading string component,
mirroring how pandas sorts on several key columns at once. -/
def lexStr {α : Type} (r : α → α → Prop) (a b : String × α) : Prop :=
  strLt a.1 b.1 ∨ (a.1 = b.1 ∧ r a.2 b.2)

instance {α : Type} (r : α → α → Prop) [DecidableRel r] :
    DecidableRel (lexStr r) := fun a b =>
  inferInstanceAs (Decidable (strLt a.1 b.1 ∨ (a.1 = b.1 ∧ r a.2 b.2)))

/-! ### Per-player aggregation (lines 122-124)

`year_data['valid_ball'] = year_data['wides'] == 0`
`year_data['balls_faced'] = year_data.groupby(['match_id','batter'])['valid_ball'].cumsum()`
`year_data['total_runs_scored'] = year_data.groupby(['match_id','batter'])['runs_batter'].transform('sum')` -/

/-- A delivery counts toward balls faced exactly when its wide count is 0. -/
def valid_ball (r : BallRow) : Bool := r.wides == 0

/-- Whether a row belongs to the `(match_id, batter)` group. -/
def inGroup (m b : String) (r : BallRow) : Bool :=
  r.match_id == m && r.batter == b

/-- Number of valid balls (wides = 0) of the `(m, b)` group inside `l`. -/
def validCount (l : List BallRow) (m b : String) : Nat :=
  (l.filter (fun r => inGroup m b r && valid_ball r)).length

/-- Total `runs_batter` of the `(m, b)` group inside `l`. -/
def groupRunsSum (l : List BallRow) (m b : String) : Nat :=
  ((l.filter (inGroup m b)).map (fun r => r.runs_batter)).sum

/-- One row of `year_data` after the three derived columns of lines 122-124
are attached. -/
structure StatRow where
  row : BallRow
  balls_faced : Nat
  total_runs_scored : Nat
deriving DecidableEq, Repr

/-- Walks the table in order, carrying the rows already seen, and attaches to
each row its group-wise running count of valid balls (`cumsum` up to and
including the row) and the group-wise total of `runs_batter` (`transform`
over the whole table `all`). -/
def attachStats (all : List BallRow) : List BallRow → List BallRow → List StatRow
  | _, [] => []
  | seen, r :: rest =>
    { row := r
      balls_faced := validCount (seen ++ [r]) r.match_id r.batter
      total_runs_scored := groupRunsSum all r.match_id r.batter }
      :: attachStats all (seen ++ [r]) rest

/-- The table with the derived columns of lines 122-124. -/
def withStats (rows : List BallRow) : List StatRow :=
  attachStats rows [] rows

/-! ### Match summary reducer (`create_player_performance_chart`) -/

/-- Models `.round(2)`: rounding to two decimal places. -/
def round2 (x : ℚ) : ℚ := (round (x * 100) : ℤ) / 100

/-- One row of the `player_performances` frame.  `strike_rate` is `none`
before the column is assigned and also when the division `runs / 0` produced
a non-finite float. -/
structure SummaryRow where
  match_id : String
  bowling_team : String
  date : String
  venue : String
  total_runs_scored : Nat
  balls_faced : Nat
  strike_rate : Option ℚ
deriving DecidableEq, Repr

/-- The value returned by `create_player_performance_chart`: the per-match
frame backing the figure, and the `(total_runs, overall_strike_rate)` pair. -/
structure ChartResult where
  rows : List SummaryRow
  total_runs : Nat
  overall_strike_rate : ℚ
deriving DecidableEq, Repr

/-- The grouping key of line 142: `['match_id', 'bowling_team', 'date',
'venue']`. -/
def groupKey (r : StatRow) : String × String × String × String :=
  (r.row.match_id, r.row.bowling_team, r.row.date, r.row.venue)

/-- Ordering of the grouped frame produced by `groupby(...).agg(...)` with its
default `sort=True`: lexicographic on the four key columns. -/
def keyLE : (String × String × String × String) →
    (String × String × String × String) → Prop :=
  lexStr (lexStr (lexStr strLe))

instance : DecidableRel keyLE :=
  inferInstanceAs (DecidableRel (lexStr (lexStr (lexStr strLe))))

/-- Sort relation of `sort_values('date')`. -/
def dateLE (a b : StatRow) : Prop := strLe a.row.date b.row.date

instance : DecidableRel dateLE := fun a b =>
  inferInstanceAs (Decidable (strLe a.row.date b.row.date))

/-- Aggregation of one group (line 142-145): `total_runs_scored` is `'first'`
over the group in frame order, `balls_faced` is `'max'`; the remaining columns
come from the key.  `strike_rate` is not a column yet. -/
def aggGroup (pd : List StatRow) (k : String × String × String × String) :
    SummaryRow :=
  let grp := pd.filter (fun r => groupKey r = k)
  { match_id := k.1
    bowling_team := k.2.1
    date := k.2.2.1
    venue := k.2.2.2
    total_runs_scored := ((grp.map (fun r => r.total_runs_scored)).headD 0)
    balls_faced := (grp.map (fun r => r.balls_faced)).foldr max 0
    strike_rate := none }

/-- `drop_duplicates(subset=['match_id'])` (line 148): keeps the first row of
each match identifier. -/
def dropDupMatches : List SummaryRow → List String → List SummaryRow
  | [], _ => []
  | s :: rest, seen =>
    if s.match_id ∈ seen then dropDupMatches rest seen
    else s :: dropDupMatches rest (s.match_id :: seen)

/-- The fixed team-acronym lookup table of lines 158-169. -/
def team_acronyms : List (String × String) :=
  [("Kolkata Knight Riders", "KKR"),
   ("Royal Challengers Bengaluru", "RCB"),
   ("Chennai Super Kings", "CSK"),
   ("Delhi Capitals", "DC"),
   ("Mumbai Indians", "MI"),
   ("Punjab Kings", "PBKS"),
   ("Rajasthan Royals", "RR"),
   ("Sunrisers Hyderabad", "SRH"),
   ("Lucknow Super Giants", "LSG"),
   ("Gujarat Titans", "GT")]

/-- `Series.replace` through the acronym table: mapped names are replaced,
unmapped names pass through unchanged. -/
def acronymOf (team : String) : String :=
  match team_acronyms.lookup team with
  | some a => a
  | none => team

/-- Lines 142-148: group the filtered rows by the four-column key (the
grouped frame comes out sorted by that key), aggregate each group with
`'first'`/`'max'`, and drop duplicate match identifiers. -/
def playerPerformances (pd : List StatRow) : List SummaryRow :=
  dropDupMatches
    ((List.insertionSort keyLE ((pd.map groupKey).dedup)).map (aggGroup pd)) []

/-- Line 155: the per-match strike-rate column.  There is no zero guard in
the source; dividing by a zero balls-faced figure yields the non-finite
pandas value, modelled `none`. -/
def attachStrikeRate (s : SummaryRow) : SummaryRow :=
  { s with strike_rate :=
      if s.balls_faced = 0 then none
      else some (round2 ((s.total_runs_scored : ℚ) / (s.balls_faced : ℚ) * 100)) }

/-- Line 172: replace the bowling team by its display acronym. -/
def toAcronym (s : SummaryRow) : SummaryRow :=
  { s with bowling_team := acronymOf s.bowling_team }

/-- The body of `create_player_performance_chart` after the early returns:
takes the already filtered and date-sorted player rows. -/
def chartCore (pd : List StatRow) : ChartResult :=
  let deduped := playerPerformances pd
  let totalRuns : Nat := (deduped.map (fun s => s.total_runs_scored)).sum
  let totalBalls : Nat := (deduped.map (fun s => s.balls_faced)).sum
  let overall : ℚ :=
    if 0 < totalBalls then round2 ((totalRuns : ℚ) / (totalBalls : ℚ) * 100)
    else 0
  { rows := (deduped.map attachStrikeRate).map toAcronym
    total_runs := totalRuns
    overall_strike_rate := overall }

/-- `create_player_performance_chart(data, player_name)` (lines 133-204),
restricted to the data it computes: the per-match frame and the
`(total_runs, overall_strike_rate)` pair. -/
def create_player_performance_chart (data : List StatRow)
    (player_name : Option String) : ChartResult :=
  match player_name with
  | none => { rows := [], total_runs := 0, overall_strike_rate := 0 }
  | some q =>
    if q = "" then { rows := [], total_runs := 0, overall_strike_rate := 0 }
    else
      let player_data :=
        List.insertionSort dateLE (data.filter (fun r => batterMatches q r.row.batter))
      if player_data = [] then { rows := [], total_runs := 0, overall_strike_rate := 0 }
      else chartCore player_data

/-! ### Derived notions and concrete inputs used by the statements below -/

/-- The balls-faced figure the reducer produces for the `(m, b)` group: the
maximum (`'max'`, line 144) of the running cumulative count attached by
line 123, over the rows of the group. -/
def maxBallsFaced (l : List StatRow) (m b : String) : Nat :=
  ((l.filter (fun a => inGroup m b a.row)).map (fun a => a.balls_faced)).foldr max 0

/-- The conditions under which the ingestion loop `continue`s over a file:
undecodable JSON, missing or empty info section, or (when the first date can
be read, i.e. the dates list is absent or non-empty) fewer than two teams. -/
def skipCase : RawFile → Bool
  | .malformed _ => true
  | .parsed _ d =>
    match d.info with
    | none => true
    | some info =>
      match info.dates.getD [""] with
      | [] => false
      | _ :: _ => decide ((info.teams.getD []).length < 2)

/-- Example delivery row: batter A scores 4 off a legal ball. -/
def exRow1 : BallRow :=
  { match_id := "m1", date := "2024-05-01", season := "2024", venue := "V",
    batting_team := "T", bowling_team := "X", over := 0, batter := "A",
    bowler := "bw", non_striker := "ns", runs_batter := 4, extras := 0,
    total_runs := 4, wides := 0, noballs := 0, legbyes := 0, byes := 0,
    wicket := 0, wicket_type := "", player_out := "", fielder := "" }

/-- Example delivery row: batter A scores 1 off a wide. -/
def exRow2 : BallRow :=
  { exRow1 with runs_batter := 1, extras := 1, total_runs := 2, wides := 1 }

/-- Example delivery row: the only delivery faced by batter B in the match is
a wide, so B has a row but zero valid balls. -/
def wideOnlyRow : BallRow :=
  { exRow1 with
    batter := "B"
    runs_batter := 0
    extras := 1
    total_runs := 1
    wides := 1 }

/-- Example delivery row for batter C in match `10`, dated May 2024. -/
def cRowMay : BallRow :=
  { exRow1 with
    match_id := "10"
    date := "2024-05-01"
    batter := "C"
    runs_batter := 3
    total_runs := 3 }

/-- Example delivery row for batter C in match `9`, dated April 2024. -/
def cRowApril : BallRow :=
  { exRow1 with
    match_id := "9"
    date := "2024-04-01"
    batter := "C"
    runs_batter := 7
    total_runs := 7 }

/-- A delivery with no extras sub-structure and no wickets. -/
def dNoExtras : DeliveryData :=
  { batter := some "A", bowler := some "bw", non_striker := some "ns",
    runs := some ⟨some 4, some 0, some 4⟩, extras := none, wickets := none }

/-- The row `ball_data` emits for `dNoExtras`. -/
def eNoExtras : BallRow :=
  { match_id := "m1", date := "2024-05-01", season := "2024", venue := "V",
    batting_team := "T1", bowling_team := "T2", over := 0, batter := "A",
    bowler := "bw", non_striker := "ns", runs_batter := 4, extras := 0,
    total_runs := 4, wides := 0, noballs := 0, legbyes := 0, byes := 0,
    wicket := 0, wicket_type := "", player_out := "", fielder := "" }

/-- A delivery carrying one wicket entry with one named fielder. -/
def dWicket : DeliveryData :=
  { batter := some "A", bowler := some "bw", non_striker := some "ns",
    runs := some ⟨some 0, some 0, some 0⟩, extras := none,
    wickets := some [⟨some "caught", some "A", some [⟨some "F"⟩]⟩] }

/-- The row `ball_data` emits for `dWicket`. -/
def eWicket : BallRow :=
  { eNoExtras with
    runs_batter := 0
    total_runs := 0
    wicket := 1
    wicket_type := "caught"
    player_out := "A"
    fielder := "F" }

/-- A delivery whose `wickets` key is present with an empty list. -/
def dEmptyWickets : DeliveryData :=
  { batter := some "A", bowler := none, non_striker := none,
    runs := none, extras := none, wickets := some [] }

/-- The info section of a record with an empty `dates` list and no teams. -/
def badDatesInfo : MatchInfo :=
  { dates := some [], season := none, venue := none, teams := some [],
    toss := none }

/-- A decoded record whose info has an empty `dates` list and fewer than two
teams. -/
def badDatesFile : RawFile := .parsed "dir/bad.json" ⟨some badDatesInfo, none⟩

/-- A benign well-formed record (two teams, one date, no innings). -/
def okFile : RawFile :=
  .parsed "dir/ok.json"
    ⟨some { dates := some ["2024-01-01"], season := some "2024",
            venue := some "V", teams := some ["T1", "T2"], toss := none },
     some []⟩

/-! ### Order lemmas for the string comparator -/

theorem listCharLt_trans : ∀ {a b c : List Char},
    listCharLt a b = true → listCharLt b c = true → listCharLt a c = true
  | [], [], _, h1, _ => by simp [listCharLt] at h1
  | [], _ :: _, [], _, h2 => by simp [listCharLt] at h2
  | [], _ :: _, _ :: _, _, _ => rfl
  | _ :: _, [], _, h1, _ => by simp [listCharLt] at h1
  | _ :: _, _ :: _, [], _, h2 => by simp [listCharLt] at h2
  | x :: xs, y :: ys, z :: zs, h1, h2 => by
    simp only [listCharLt, Bool.or_eq_true, Bool.and_eq_true, beq_iff_eq,
      decide_eq_true_eq] at h1 h2 ⊢
    rcases h1 with h1 | ⟨rfl, h1⟩
    · rcases h2 with h2 | ⟨rfl, _⟩
      · exact Or.inl (lt_trans h1 h2)
      · exact Or.inl h1
    · rcases h2 with h2 | ⟨rfl, h2⟩
      · exact Or.inl h2
      · exact Or.inr ⟨rfl, listCharLt_trans h1 h2⟩

theorem listCharLt_conn : ∀ {a b : List Char},
    listCharLt a b = false → listCharLt b a = false → a = b
  | [], [], _, _ => rfl
  | [], _ :: _, h1, _ => by simp [listCharLt] at h1
  | _ :: _, [], _, h2 => by simp [listCharLt] at h2
  | x :: xs, y :: ys, h1, h2 => by
    by_cases hxy : x = y
    · subst hxy
      simp only [listCharLt, Bool.or_eq_false_iff, Bool.and_eq_false_iff,
        beq_eq_false_iff_ne, ne_eq] at h1 h2
      have e1 : listCharLt xs ys = false := h1.2.resolve_left (by simp)
      have e2 : listCharLt ys xs = false := h2.2.resolve_left (by simp)
      exact congrArg (x :: ·) (listCharLt_conn e1 e2)
    · simp only [listCharLt, Bool.or_eq_false_iff, decide_eq_false_iff_not] at h1 h2
      rcases lt_trichotomy x y with h | h | h
      · exact absurd h h1.1
      · exact absurd h hxy
      · exact absurd h h2.1

theorem strLt_trans {a b c : String} (h1 : strLt a b) (h2 : strLt b c) :
    strLt a c := listCharLt_trans h1 h2

theorem strLt_conn {a b : String} (h1 : ¬ strLt a b) (h2 : ¬ strLt b a) :
    a = b := by
  have e : a.toList = b.toList :=
    listCharLt_conn (Bool.eq_false_iff.mpr h1) (Bool.eq_false_iff.mpr h2)
  have h : a.data = b.data := e
  cases a; cases b; exact congrArg String.mk h

instance : IsTotal String strLe where
  total a b := by
    by_cases h1 : strLt a b
    · exact Or.inl (Or.inl h1)
    · by_cases h2 : strLt b a
      · exact Or.inr (Or.inl h2)
      · exact Or.inl (Or.inr (strLt_conn h1 h2))

instance : IsTrans String strLe where
  trans a b c h1 h2 := by
    rcases h1 with h1 | rfl
    · rcases h2 with h2 | rfl
      · exact Or.inl (strLt_trans h1 h2)
      · exact Or.inl h1
    · exact h2

instance {α : Type} (r : α → α → Prop) [IsTotal α r] :
    IsTotal (String × α) (lexStr r) where
  total a b := by
    by_cases h1 : strLt a.1 b.1
    · exact Or.inl (Or.inl h1)
    · by_cases h2 : strLt b.1 a.1
      · exact Or.inr (Or.inl h2)
      · rcases IsTotal.total (r := r) a.2 b.2 with h | h
        · exact Or.inl (Or.inr ⟨strLt_conn h1 h2, h⟩)
        · exact Or.inr (Or.inr ⟨strLt_conn h2 h1, h⟩)

instance {α : Type} (r : α → α → Prop) [IsTrans α r] :
    IsTrans (String × α) (lexStr r) where
  trans a b c h1 h2 := by
    rcases h1 with h1 | ⟨e1, h1⟩
    · rcases h2 with h2 | ⟨e2, h2⟩
      · exact Or.inl (strLt_trans h1 h2)
      · exact Or.inl (e2 ▸ h1)
    · rcases h2 with h2 | ⟨e2, h2⟩
      · exact Or.inl (e1 ▸ h2)
      · exact Or.inr ⟨e1.trans e2, Trans.trans h1 h2⟩

instance : IsTotal (String × String × String × String) keyLE :=
  inferInstanceAs (IsTotal _ (lexStr (lexStr (lexStr strLe))))

instance : IsTrans (String × String × String × String) keyLE :=
  inferInstanceAs (IsTrans _ (lexStr (lexStr (lexStr strLe))))

/-! ### Claims C7 and C8: the delivery parser -/

/-- Claim C7: for every delivery the parser emits, if the delivery carries no
extras sub-structure then wides, noballs, legbyes and byes are all 0; if an
extras sub-structure is present, each field independently takes the value of
its key there, defaulting to 0 when that key is absent. -/
theorem claimC7_extras_defaults
    (matchId date season venue bat bowl : String) (ov : Nat)
    (d : DeliveryData) (e : BallRow)
    (h : ball_data matchId date season venue bat bowl ov d = some e) :
    (d.extras = none → e.wides = 0 ∧ e.noballs = 0 ∧ e.legbyes = 0 ∧ e.byes = 0)
    ∧ (∀ ex, d.extras = some ex →
        e.wides = ex.wides.getD 0 ∧ e.noballs = ex.noballs.getD 0 ∧
        e.legbyes = ex.legbyes.getD 0 ∧ e.byes = ex.byes.getD 0) := by
  cases hw : d.wickets with
  | none =>
    simp only [ball_data, hw] at h
    rw [Option.some.injEq] at h
    subst h
    exact ⟨fun hx => by simp [hx], fun ex hx => by simp [hx]⟩
  | some l =>
    cases l with
    | nil =>
      simp only [ball_data, hw] at h
      exact Option.noConfusion h
    | cons w ws =>
      simp only [ball_data, hw] at h
      rw [Option.some.injEq] at h
      subst h
      exact ⟨fun hx => by simp [hx], fun ex hx => by simp [hx]⟩

/-- Witness for C7 at a concrete delivery with no extras sub-structure. -/
theorem claimC7_witness :
    eNoExtras.wides = 0 ∧ eNoExtras.noballs = 0 ∧ eNoExtras.legbyes = 0 ∧
    eNoExtras.byes = 0 :=
  (claimC7_extras_defaults "m1" "2024-05-01" "2024" "V" "T1" "T2" 0
    dNoExtras eNoExtras (by decide)).1 (by decide)

/-- Counterexample to claim C8 as stated: this delivery has zero wicket
entries (its `wickets` key holds an empty list), yet the parser does not emit
a row with wicket count 0 and empty fields — `delivery['wickets'][0]` raises
an `IndexError` instead. -/
theorem claimC8_counterexample :
    (dEmptyWickets.wickets.getD []).length = 0 ∧
    ball_data "m1" "2024-05-01" "2024" "V" "T1" "T2" 0 dEmptyWickets = none := by
  decide

/-- Claim C8 (amended): for every delivery the parser emits, if the `wickets`
key is absent the wicket count is 0 and kind, player out and fielder are
empty; if it holds one or more entries, the wicket count is the number of
entries while kind, player out and fielder come from the first entry only,
the fielder being the first listed fielder's name (default empty), or the
empty string when the wicket has no fielders list or an empty one.  (A
present-but-empty `wickets` list makes the parser fail instead, per the
counterexample.) -/
theorem claimC8_first_wicket
    (matchId date season venue bat bowl : String) (ov : Nat)
    (d : DeliveryData) (e : BallRow)
    (h : ball_data matchId date season venue bat bowl ov d = some e) :
    (d.wickets = none →
      e.wicket = 0 ∧ e.wicket_type = "" ∧ e.player_out = "" ∧ e.fielder = "")
    ∧ (∀ w ws, d.wickets = some (w :: ws) →
        e.wicket = (w :: ws).length ∧
        e.wicket_type = w.kind.getD "" ∧
        e.player_out = w.player_out.getD "" ∧
        e.fielder = (match w.fielders with
          | none => ""
          | some [] => ""
          | some (f :: _) => f.name.getD "")) := by
  cases hw : d.wickets with
  | none =>
    simp only [ball_data, hw] at h
    rw [Option.some.injEq] at h
    subst h
    exact ⟨fun _ => by simp, fun w ws hww => Option.noConfusion hww⟩
  | some l =>
    cases l with
    | nil =>
      simp only [ball_data, hw] at h
      exact Option.noConfusion h
    | cons w0 ws0 =>
      simp only [ball_data, hw] at h
      rw [Option.some.injEq] at h
      subst h
      refine ⟨fun hn => Option.noConfusion hn, fun w ws hww => ?_⟩
      obtain ⟨rfl, rfl⟩ : w0 = w ∧ ws0 = ws := by simpa using hww
      simp

/-- Witness for C8 at a concrete delivery carrying one wicket entry. -/
theorem claimC8_witness :
    eWicket.wicket = 1 ∧ eWicket.wicket_type = "caught" ∧
    eWicket.player_out = "A" ∧ eWicket.fielder = "F" :=
  (claimC8_first_wicket "m1" "2024-05-01" "2024" "V" "T1" "T2" 0
    dWicket eWicket (by decide)).2 ⟨some "caught", some "A", some [⟨some "F"⟩]⟩
    [] (by decide)

/-! ### Claims C9, C3 and C1 -/

/-- Claim C9: a query with an absent or empty player name, or whose player
filter matches zero rows of the table, returns the empty result with season
totals runs 0 and strike rate 0, and raises no error. -/
theorem claimC9_empty_query_empty_result :
    (∀ data, create_player_performance_chart data none =
        { rows := [], total_runs := 0, overall_strike_rate := 0 })
    ∧ (∀ data, create_player_performance_chart data (some "") =
        { rows := [], total_runs := 0, overall_strike_rate := 0 })
    ∧ (∀ (data : List StatRow) (q : String), modelledPattern q = true →
        data.filter (fun r => batterMatches q r.row.batter) = [] →
        create_player_performance_chart data (some q) =
          { rows := [], total_runs := 0, overall_strike_rate := 0 }) := by
  refine ⟨fun data => rfl, fun data => by simp [create_player_performance_chart], ?_⟩
  intro data q hm hf
  by_cases hq : q = ""
  · simp [create_player_performance_chart, hq]
  · simp [create_player_performance_chart, hq, hf, List.insertionSort]

/-- Witness for C9: a query matching no row of an empty table. -/
theorem claimC9_witness :
    create_player_performance_chart [] (some "zzz") =
      { rows := [], total_runs := 0, overall_strike_rate := 0 } :=
  claimC9_empty_query_empty_result.2.2 [] "zzz" (by decide) rfl

/-- The `transform('sum')` value attached by `attachStats` is the group total
over the whole table, for every emitted row. -/
theorem attachStats_total_runs (all l : List BallRow) :
    ∀ (seen : List BallRow) (a : StatRow), a ∈ attachStats all seen l →
      a.total_runs_scored = groupRunsSum all a.row.match_id a.row.batter := by
  induction l with
  | nil => intro seen a ha; simp [attachStats] at ha
  | cons r rest ih =>
    intro seen a ha
    simp only [attachStats, List.mem_cons] at ha
    rcases ha with rfl | ha
    · rfl
    · exact ih _ a ha

/-- Claim C3: for every row of the aggregated table, `total_runs_scored`
equals the sum of `runs_batter` over all of that batter's deliveries in that
match; the value is broadcast identically to every row of the
`(match, batter)` group, so the first row of the group carries the match
total. -/
theorem claimC3_total_runs_broadcast (rows : List BallRow) :
    (∀ a ∈ withStats rows,
        a.total_runs_scored = groupRunsSum rows a.row.match_id a.row.batter)
    ∧ (∀ a ∈ withStats rows, ∀ b ∈ withStats rows,
        a.row.match_id = b.row.match_id → a.row.batter = b.row.batter →
        a.total_runs_scored = b.total_runs_scored)
    ∧ (∀ (m b : String) (x : StatRow),
        ((withStats rows).filter (fun a => inGroup m b a.row)).head? = some x →
        x.total_runs_scored = groupRunsSum rows m b) := by
  refine ⟨fun a ha => attachStats_total_runs rows rows [] a ha, ?_, ?_⟩
  · intro a ha b hb hm hbt
    rw [attachStats_total_runs rows rows [] a ha,
      attachStats_total_runs rows rows [] b hb, hm, hbt]
  · intro m b x hx
    have hmem : x ∈ (withStats rows).filter (fun a => inGroup m b a.row) := by
      cases hfl : (withStats rows).filter (fun a => inGroup m b a.row) with
      | nil => rw [hfl] at hx; cases hx
      | cons y ys =>
        rw [hfl] at hx
        simp only [List.head?_cons, Option.some.injEq] at hx
        subst hx
        exact List.mem_cons_self y ys
    have hx1 : x ∈ withStats rows := List.mem_of_mem_filter hmem
    have hx2 := List.of_mem_filter hmem
    obtain ⟨hm2, hb2⟩ : x.row.match_id = m ∧ x.row.batter = b := by
      simpa [inGroup] using hx2
    rw [attachStats_total_runs rows rows [] x hx1, hm2, hb2]

/-- Witness for C3 at the two-delivery example table. -/
theorem claimC3_witness :
    (⟨exRow1, 1, 5⟩ : StatRow).total_runs_scored =
      groupRunsSum [exRow1, exRow2] "m1" "A" :=
  (claimC3_total_runs_broadcast [exRow1, exRow2]).1 ⟨exRow1, 1, 5⟩ (by decide)

/-- Claim C1 (evaluation at the failing input): for a batter whose only
delivery of the match is a wide, the per-match group has balls faced 0, and
line 155 computes `0 / 0` for its strike rate, producing the non-finite
pandas value (modelled `none`) instead of the 0 that the claim and the spec
require.  No exception is raised: the guarded season aggregate is 0. -/
theorem claimC1_zero_balls_strike_rate :
    ((create_player_performance_chart (withStats [wideOnlyRow]) (some "B")).rows.map
      (fun s => (s.balls_faced, s.strike_rate))) = [(0, none)]
    ∧ (create_player_performance_chart (withStats [wideOnlyRow]) (some "B")).overall_strike_rate
        = 0 := by
  decide

/-! ### Claim C2: balls faced -/

/-- Valid-ball counts add over list concatenation. -/
theorem validCount_append (l₁ l₂ : List BallRow) (m b : String) :
    validCount (l₁ ++ l₂) m b = validCount l₁ m b + validCount l₂ m b := by
  simp [validCount, List.filter_append]

/-- A list with no rows of the group contributes no valid balls. -/
theorem validCount_zero_of_no_group (l : List BallRow) (m b : String)
    (h : l.filter (inGroup m b) = []) : validCount l m b = 0 := by
  rw [validCount, List.length_eq_zero]
  rw [List.filter_eq_nil_iff] at h ⊢
  intro a ha hcontra
  simp only [Bool.and_eq_true] at hcontra
  exact h a ha hcontra.1

/-- Unfolds the reducer's group maximum over a cons cell. -/
theorem maxBallsFaced_cons (x : StatRow) (t : List StatRow) (m b : String) :
    maxBallsFaced (x :: t) m b =
      if inGroup m b x.row then max x.balls_faced (maxBallsFaced t m b)
      else maxBallsFaced t m b := by
  by_cases h : inGroup m b x.row = true <;> simp [maxBallsFaced, List.filter_cons, h]

/-- Invariant of the running cumulative count: over any tail `l` of the table,
with `seen` the rows already consumed, the maximum running count of the
`(m, b)` group equals the group's valid-ball count over `seen ++ l`, provided
the group occurs in `l` at all (and is 0 otherwise). -/
theorem attachStats_maxBalls (all : List BallRow) (m b : String) :
    ∀ (l seen : List BallRow),
      maxBallsFaced (attachStats all seen l) m b
        = if l.filter (inGroup m b) = [] then 0
          else validCount (seen ++ l) m b
  | [], seen => by simp [attachStats, maxBallsFaced]
  | r :: rest, seen => by
    have key : seen ++ r :: rest = (seen ++ [r]) ++ rest := by simp
    have ih := attachStats_maxBalls all m b rest (seen ++ [r])
    by_cases hg : inGroup m b r = true
    · obtain ⟨hm, hb⟩ : r.match_id = m ∧ r.batter = b := by simpa [inGroup] using hg
      have hL : maxBallsFaced (attachStats all seen (r :: rest)) m b
          = max (validCount (seen ++ [r]) m b)
              (maxBallsFaced (attachStats all (seen ++ [r]) rest) m b) := by
        show maxBallsFaced
          (⟨r, validCount (seen ++ [r]) r.match_id r.batter,
            groupRunsSum all r.match_id r.batter⟩ :: attachStats all (seen ++ [r]) rest) m b = _
        rw [maxBallsFaced_cons]
        simp [hg, hm, hb]
      rw [hL, ih, List.filter_cons_of_pos hg,
        if_neg (List.cons_ne_nil r (rest.filter (inGroup m b))), key]
      by_cases hrest : rest.filter (inGroup m b) = []
      · rw [if_pos hrest, validCount_append (seen ++ [r]) rest,
          validCount_zero_of_no_group rest m b hrest]
        simp
      · rw [if_neg hrest]
        exact max_eq_right
          (by rw [validCount_append (seen ++ [r]) rest]; exact Nat.le_add_right _ _)
    · have hgf : inGroup m b r = false := by simpa using hg
      have hL : maxBallsFaced (attachStats all seen (r :: rest)) m b
          = maxBallsFaced (attachStats all (seen ++ [r]) rest) m b := by
        show maxBallsFaced
          (⟨r, validCount (seen ++ [r]) r.match_id r.batter,
            groupRunsSum all r.match_id r.batter⟩ :: attachStats all (seen ++ [r]) rest) m b = _
        rw [maxBallsFaced_cons]
        simp [hgf]
      rw [hL, ih, List.filter_cons_of_neg (by simp [hgf]), key]

/-- Claim C2: for every table and `(match, batter)` pair, the balls-faced
figure the reducer produces (maximum of the running cumulative count of
deliveries with wide count 0, taken over the group) equals the number of that
batter's deliveries in that match whose `wides` field is 0; and on the
two-delivery example (4 runs off a legal ball, 1 run off a wide) the full
query pipeline reports balls faced 1, total runs 5 and strike rate 500. -/
theorem claimC2_balls_faced :
    (∀ (rows : List BallRow) (m b : String),
        maxBallsFaced (withStats rows) m b = validCount rows m b)
    ∧ create_player_performance_chart (withStats [exRow1, exRow2]) (some "A") =
        { rows := [{ match_id := "m1", bowling_team := "X", date := "2024-05-01",
                     venue := "V", total_runs_scored := 5, balls_faced := 1,
                     strike_rate := some 500 }],
          total_runs := 5, overall_strike_rate := 500 } := by
  constructor
  · intro rows m b
    rw [withStats, attachStats_maxBalls rows m b rows []]
    by_cases h : rows.filter (inGroup m b) = []
    · rw [if_pos h, validCount_zero_of_no_group rows m b h]
    · rw [if_neg h]
      simp
  · simp [create_player_performance_chart, chartCore, playerPerformances,
      attachStrikeRate, toAcronym, withStats, attachStats,
      validCount, groupRunsSum, inGroup, valid_ball, batterMatches, rsearch,
      compilePattern, toksMatchHere, tokMatches, aggGroup, groupKey,
      dropDupMatches, acronymOf, team_acronyms, List.lookup, List.insertionSort,
      List.orderedInsert, keyLE, dateLE, lexStr, strLe, strLt, listCharLt,
      exRow1, exRow2]
    norm_num [round2, round_eq]

/-! ### Claims C6 and C10: player-name matching -/

/-- A pattern of plain literals matches at the head of `s` exactly when the
lowercased pattern characters are a leading fragment of the lowercased
string. -/
theorem toksMatchHere_lit_iff : ∀ (q s : List Char),
    toksMatchHere (q.map RTok.lit) s = true ↔
      (q.map Char.toLower) <+: (s.map Char.toLower)
  | [], s => by
    simp only [List.map_nil, toksMatchHere]
    exact ⟨fun _ => ⟨s.map Char.toLower, rfl⟩, fun _ => trivial⟩
  | c :: cs, [] => by
    simp only [List.map_cons, List.map_nil, toksMatchHere]
    constructor
    · intro h; cases h
    · rintro ⟨t, ht⟩; cases ht
  | c :: cs, d :: ds => by
    simp only [List.map_cons, toksMatchHere, tokMatches, Bool.and_eq_true, beq_iff_eq]
    constructor
    · rintro ⟨h1, h2⟩
      obtain ⟨t, ht⟩ := (toksMatchHere_lit_iff cs ds).mp h2
      exact ⟨t, by simp [h1, ht]⟩
    · rintro ⟨t, ht⟩
      rw [List.cons_append] at ht
      obtain ⟨h1, h2⟩ : c.toLower = d.toLower ∧ cs.map Char.toLower ++ t = ds.map Char.toLower := by
        simpa using ht
      exact ⟨h1, (toksMatchHere_lit_iff cs ds).mpr ⟨t, h2⟩⟩

/-- `re.search` with a pattern of plain literals is case-insensitive substring
containment. -/
theorem rsearch_lit_iff (q s : List Char) :
    rsearch (q.map RTok.lit) s = true ↔
      (q.map Char.toLower) <:+: (s.map Char.toLower) := by
  rw [rsearch, List.any_eq_true]
  constructor
  · rintro ⟨t, hmem, hmt⟩
    obtain ⟨u, hu⟩ : t <:+ s := (List.mem_tails t s).mp hmem
    obtain ⟨v, hv⟩ := (toksMatchHere_lit_iff q t).mp hmt
    refine ⟨u.map Char.toLower, v, ?_⟩
    calc u.map Char.toLower ++ q.map Char.toLower ++ v
        = u.map Char.toLower ++ (q.map Char.toLower ++ v) := by rw [List.append_assoc]
      _ = u.map Char.toLower ++ t.map Char.toLower := by rw [hv]
      _ = (u ++ t).map Char.toLower := by rw [List.map_append]
      _ = s.map Char.toLower := by rw [hu]
  · rintro ⟨u, v, huv⟩
    refine ⟨s.drop u.length, (List.mem_tails _ s).mpr ⟨s.take u.length, List.take_append_drop _ s⟩, ?_⟩
    apply (toksMatchHere_lit_iff q (s.drop u.length)).mpr
    refine ⟨v, ?_⟩
    have hmd : (s.drop u.length).map Char.toLower = (s.map Char.toLower).drop u.length := by
      rw [List.map_drop]
    rw [hmd, ← huv, List.append_assoc, List.drop_left]

/-- On queries made only of plain literal characters, the line-137 player
filter coincides with case-insensitive substring containment. -/
theorem batterMatches_plain (q s : String)
    (hq : q.toList.all plainRegexChar = true) :
    batterMatches q s = substrCI q s := by
  have hc : compilePattern q = q.toList.map RTok.lit := by
    rw [compilePattern]
    apply List.map_congr_left
    intro c hcmem
    have hcp := List.all_eq_true.mp hq c hcmem
    have hne : c ≠ '.' := by
      intro he
      rw [he] at hcp
      simp [plainRegexChar] at hcp
    simp [hne]
  rw [batterMatches, hc, substrCI, Bool.eq_iff_iff, decide_eq_true_eq]
  exact rsearch_lit_iff q.toList s.toList

/-- Counterexample to claim C6 as stated: the query `"."` is not treated as
case-insensitive substring containment — it selects the batter `Virat Kohli`,
whose name contains no dot. -/
theorem claimC6_counterexample :
    batterMatches "." "Virat Kohli" = true ∧
    substrCI "." "Virat Kohli" = false := by decide

/-- Both sides of the chart function agree when the two queries select the
same rows. -/
theorem chart_query_congr (data : List StatRow) (q₁ q₂ : String)
    (h1 : ¬ q₁ = "") (h2 : ¬ q₂ = "")
    (h : ∀ r ∈ data, batterMatches q₁ r.row.batter = batterMatches q₂ r.row.batter) :
    create_player_performance_chart data (some q₁)
      = create_player_performance_chart data (some q₂) := by
  have hfc : data.filter (fun r => batterMatches q₁ r.row.batter)
      = data.filter (fun r => batterMatches q₂ r.row.batter) :=
    List.filter_congr (fun r hr => h r hr)
  simp only [create_player_performance_chart, if_neg h1, if_neg h2, hfc]

/-- Queries `kohli` and `KOHLI` select exactly the same names. -/
theorem batterMatches_kohli_case (s : String) :
    batterMatches "kohli" s = batterMatches "KOHLI" s := by
  rw [batterMatches_plain "kohli" s (by decide),
    batterMatches_plain "KOHLI" s (by decide), substrCI, substrCI]
  have he : ("kohli".toList.map Char.toLower) = ("KOHLI".toList.map Char.toLower) := by
    decide
  rw [he]

/-- Claim C6 (amended): for query strings made of plain literal characters
(no regex metacharacters) the player filter is case-insensitive substring
matching, not exact matching; the queries kohli, KOHLI and Koh all select the
batter `Virat Kohli`, kohli and KOHLI always produce identical results, and
Koh produces the same result as kohli on any table free of other substring
collisions.  (On metacharacter queries the filter is regex search instead,
per the counterexample.) -/
theorem claimC6_substring_matching :
    (∀ q s : String, q.toList.all plainRegexChar = true →
        batterMatches q s = substrCI q s)
    ∧ (batterMatches "kohli" "Virat Kohli" = true
        ∧ batterMatches "KOHLI" "Virat Kohli" = true
        ∧ batterMatches "Koh" "Virat Kohli" = true)
    ∧ (∀ data : List StatRow,
        create_player_performance_chart data (some "kohli")
          = create_player_performance_chart data (some "KOHLI")
        ∧ ((∀ r ∈ data, batterMatches "Koh" r.row.batter
              = batterMatches "kohli" r.row.batter) →
            create_player_performance_chart data (some "Koh")
              = create_player_performance_chart data (some "kohli"))) := by
  refine ⟨batterMatches_plain, by refine ⟨by decide, by decide, by decide⟩, ?_⟩
  intro data
  constructor
  · exact chart_query_congr data "kohli" "KOHLI" (by decide) (by decide)
      (fun r _ => batterMatches_kohli_case r.row.batter)
  · intro h
    exact chart_query_congr data "Koh" "kohli" (by decide) (by decide) h

/-- Witness for C6 (amended) at a concrete plain query. -/
theorem claimC6_witness :
    batterMatches "kohli" "Virat Kohli" = substrCI "kohli" "Virat Kohli" :=
  claimC6_substring_matching.1 "kohli" "Virat Kohli" (by decide)

/-- Counterexample to claim C10 as stated: the name consisting of a single
newline is non-empty, yet the query `"."` does not select it (a regex dot
does not match a newline). -/
theorem claimC10_counterexample :
    ("\n" : String) ≠ "" ∧ batterMatches "." "\n" = false := by decide

/-- Claim C10 (amended): queries with metacharacters are interpreted as regex
patterns, not substrings: the query `"."` selects every batter whose name
contains at least one non-newline character (so every realistic non-empty
name), including `Virat Kohli`, which contains no literal dot. -/
theorem claimC10_regex_dot :
    (∀ s : String, s.toList.any (fun c => c ≠ '\n') = true →
        batterMatches "." s = true)
    ∧ batterMatches "." "Virat Kohli" = true
    ∧ substrCI "." "Virat Kohli" = false := by
  refine ⟨?_, by decide, by decide⟩
  intro s hs
  rw [batterMatches]
  have hpat : compilePattern "." = [RTok.dot] := by decide
  rw [hpat]
  have main : ∀ l : List Char, l.any (fun c => c ≠ '\n') = true →
      rsearch [RTok.dot] l = true := by
    intro l
    induction l with
    | nil => intro h; simp at h
    | cons c cs ih =>
      intro h
      by_cases hc : c = '\n'
      · subst hc
        have hcs : cs.any (fun c => c ≠ '\n') = true := by simpa using h
        have := ih hcs
        rw [rsearch] at this ⊢
        rw [List.tails_cons, List.any_cons]
        rw [this]
        simp
      · rw [rsearch, List.tails_cons, List.any_cons]
        have hhead : toksMatchHere [RTok.dot] ('\n' :: cs) = true → True := fun _ => trivial
        have : toksMatchHere [RTok.dot] (c :: cs) = true := by
          simp [toksMatchHere, tokMatches, hc]
        rw [this]
        simp
  exact main s.toList hs

/-- Witness for C10 (amended) at a concrete name. -/
theorem claimC10_witness :
    batterMatches "." "Virat Kohli" = true :=
  claimC10_regex_dot.1 "Virat Kohli" (by decide)

/-! ### Claim C4: output ordering and season totals -/

/-- Counterexample to claim C4 as stated: with matches `10` (May) and `9`
(April), the grouped frame is sorted by match identifier as a string, so the
per-match rows come out with dates in descending order. -/
theorem claimC4_counterexample :
    ((create_player_performance_chart (withStats [cRowApril, cRowMay]) (some "C")).rows.map
        (fun s => s.date)) = ["2024-05-01", "2024-04-01"]
    ∧ ¬ List.Pairwise (fun a b : SummaryRow => strLe a.date b.date)
        (create_player_performance_chart (withStats [cRowApril, cRowMay]) (some "C")).rows := by
  decide

/-- Deduplication keeps a subsequence of its input. -/
theorem dropDupMatches_sublist : ∀ (l : List SummaryRow) (seen : List String),
    List.Sublist (dropDupMatches l seen) l
  | [], _ => List.Sublist.refl []
  | s :: rest, seen => by
    rw [dropDupMatches]
    by_cases h : s.match_id ∈ seen
    · rw [if_pos h]
      exact (dropDupMatches_sublist rest seen).cons s
    · rw [if_neg h]
      exact (dropDupMatches_sublist rest (s.match_id :: seen)).cons₂ s

/-- Deduplication never emits a match identifier that was already seen. -/
theorem dropDupMatches_not_mem : ∀ (l : List SummaryRow) (seen : List String)
    (s : SummaryRow), s ∈ dropDupMatches l seen → s.match_id ∉ seen
  | [], _, s => by simp [dropDupMatches]
  | r :: rest, seen, s => by
    rw [dropDupMatches]
    by_cases h : r.match_id ∈ seen
    · rw [if_pos h]
      exact dropDupMatches_not_mem rest seen s
    · rw [if_neg h]
      intro hmem
      rcases List.mem_cons.mp hmem with rfl | hmem2
      · exact h
      · intro hseen
        exact dropDupMatches_not_mem rest _ s hmem2 (List.mem_cons_of_mem _ hseen)

/-- Deduplicated rows have pairwise distinct match identifiers. -/
theorem dropDupMatches_pairwise_ne : ∀ (l : List SummaryRow) (seen : List String),
    (dropDupMatches l seen).Pairwise (fun a b => a.match_id ≠ b.match_id)
  | [], _ => by simp [dropDupMatches]
  | r :: rest, seen => by
    rw [dropDupMatches]
    by_cases h : r.match_id ∈ seen
    · rw [if_pos h]
      exact dropDupMatches_pairwise_ne rest seen
    · rw [if_neg h]
      refine List.Pairwise.cons ?_ (dropDupMatches_pairwise_ne rest _)
      intro b hb he
      exact dropDupMatches_not_mem rest _ b hb (he ▸ List.mem_cons_self _ _)

/-- The grouped-and-deduplicated frame is strictly ascending in match
identifier. -/
theorem playerPerformances_sorted (pd : List StatRow) :
    (playerPerformances pd).Pairwise (fun a b => strLt a.match_id b.match_id) := by
  have hkeys : (List.insertionSort keyLE ((pd.map groupKey).dedup)).Pairwise keyLE :=
    List.sorted_insertionSort keyLE _
  have hgrouped :
      ((List.insertionSort keyLE ((pd.map groupKey).dedup)).map (aggGroup pd)).Pairwise
        (fun a b => keyLE (a.match_id, a.bowling_team, a.date, a.venue)
          (b.match_id, b.bowling_team, b.date, b.venue)) := by
    rw [List.pairwise_map]
    exact hkeys
  have hd1 := hgrouped.sublist
    (dropDupMatches_sublist ((List.insertionSort keyLE ((pd.map groupKey).dedup)).map (aggGroup pd)) [])
  have hd2 := dropDupMatches_pairwise_ne
    ((List.insertionSort keyLE ((pd.map groupKey).dedup)).map (aggGroup pd)) []
  have hcomb := hd1.and hd2
  exact hcomb.imp (fun {a b} hab => by
    rcases hab.1 with hlt | ⟨heq, _⟩
    · exact hlt
    · exact absurd heq hab.2)

/-- `chartCore` output: rows strictly ascending in match identifier, season
total equal to the sum of the per-match runs, and the overall strike rate
given by its guarded formula over the summed columns. -/
theorem chartCore_props (pd : List StatRow) :
    List.Pairwise (fun a b => strLt a.match_id b.match_id) (chartCore pd).rows
    ∧ (chartCore pd).total_runs
        = ((chartCore pd).rows.map (fun s => s.total_runs_scored)).sum
    ∧ (chartCore pd).overall_strike_rate
        = (if 0 < ((chartCore pd).rows.map (fun s => s.balls_faced)).sum
           then round2
             (((((chartCore pd).rows.map (fun s => s.total_runs_scored)).sum : Nat) : ℚ)
               / ((((chartCore pd).rows.map (fun s => s.balls_faced)).sum : Nat) : ℚ) * 100)
           else 0) := by
  have hrows : (chartCore pd).rows
      = ((playerPerformances pd).map attachStrikeRate).map toAcronym := rfl
  have hruns : ((chartCore pd).rows.map (fun s => s.total_runs_scored)).sum
      = ((playerPerformances pd).map (fun s => s.total_runs_scored)).sum := by
    rw [hrows, List.map_map, List.map_map]
    rfl
  have hballs : ((chartCore pd).rows.map (fun s => s.balls_faced)).sum
      = ((playerPerformances pd).map (fun s => s.balls_faced)).sum := by
    rw [hrows, List.map_map, List.map_map]
    rfl
  refine ⟨?_, ?_, ?_⟩
  · rw [hrows, List.pairwise_map, List.pairwise_map]
    exact playerPerformances_sorted pd
  · rw [hruns]
    rfl
  · rw [hruns, hballs]
    rfl

/-- Claim C4 (amended): for every query, the per-match rows returned by the
reducer are ordered by match identifier ascending under string comparison
(the grouped frame is sorted by its four-column key and then deduplicated by
match id) — which need not be date order; the season totals are the sum of
per-match runs and, when total balls faced is positive, sum of runs divided
by sum of balls times 100 rounded to 2 decimals (0 when total balls is 0). -/
theorem claimC4_order_and_totals (data : List StatRow) (q : Option String) :
    List.Pairwise (fun a b => strLt a.match_id b.match_id)
      (create_player_performance_chart data q).rows
    ∧ (create_player_performance_chart data q).total_runs
        = ((create_player_performance_chart data q).rows.map
            (fun s => s.total_runs_scored)).sum
    ∧ (create_player_performance_chart data q).overall_strike_rate
        = (if 0 < ((create_player_performance_chart data q).rows.map
              (fun s => s.balls_faced)).sum
           then round2
             (((((create_player_performance_chart data q).rows.map
                  (fun s => s.total_runs_scored)).sum : Nat) : ℚ)
               / ((((create_player_performance_chart data q).rows.map
                  (fun s => s.balls_faced)).sum : Nat) : ℚ) * 100)
           else 0) := by
  cases q with
  | none => exact ⟨List.Pairwise.nil, rfl, rfl⟩
  | some qs =>
    by_cases hq : qs = ""
    · simp only [create_player_performance_chart, if_pos hq]
      exact ⟨List.Pairwise.nil, rfl, rfl⟩
    · by_cases hpd : List.insertionSort dateLE
          (data.filter (fun r => batterMatches qs r.row.batter)) = []
      · simp only [create_player_performance_chart, if_neg hq, if_pos hpd]
        exact ⟨List.Pairwise.nil, rfl, rfl⟩
      · simp only [create_player_performance_chart, if_neg hq, if_neg hpd]
        exact chartCore_props _

/-! ### Claim C5: skipping malformed records -/

/-- Counterexample to claim C5 as stated: a record listing fewer than two
teams whose `dates` list is present but empty is not skipped — reading
`dates[0]` raises an uncaught `IndexError` before the team check, aborting
the run, so the remaining records are not processed. -/
theorem claimC5_counterexample :
    (badDatesInfo.teams.getD []).length < 2
    ∧ process_file badDatesFile = none
    ∧ all_balls [badDatesFile, okFile] = none
    ∧ all_balls [okFile] = some ([], []) := by decide

/-- The ingestion loop distributes over concatenation of the file list. -/
theorem all_balls_append (l₁ l₂ : List RawFile) :
    all_balls (l₁ ++ l₂) =
      match all_balls l₁, all_balls l₂ with
      | some (a, b), some (c, d) => some (a ++ c, b ++ d)
      | _, _ => none := by
  induction l₁ with
  | nil =>
    simp only [List.nil_append, all_balls]
    cases h2 : all_balls l₂ with
    | none => rfl
    | some p => cases p with | mk c d => rfl
  | cons f fs ih =>
    simp only [List.cons_append, all_balls, List.append_eq]
    cases hf : process_file f with
    | none => rfl
    | some lv =>
      cases lv with
      | mk lg ev =>
        rw [ih]
        cases hfs : all_balls fs with
        | none =>
          cases hl2 : all_balls l₂ with
          | none => rfl
          | some p => cases p with | mk c d => rfl
        | some ab =>
          cases ab with
          | mk a b =>
            cases hl2 : all_balls l₂ with
            | none => rfl
            | some p =>
              cases p with
              | mk c d => simp [List.append_assoc]

/-- Claim C5 (amended): every file that is undecodable, or whose info section
is missing or empty, or which — provided its dates list is absent or
non-empty — lists fewer than two teams, is skipped entirely: it emits zero
delivery rows, prints one diagnostic line, and removing it from the input
list leaves the emitted rows of the whole run unchanged.  (A record whose
`dates` key holds an empty list instead aborts the run, per the
counterexample.) -/
theorem claimC5_skip_and_continue (f : RawFile) (h : skipCase f = true) :
    (∃ msg, process_file f = some ([msg], []))
    ∧ ∀ pre post,
        (all_balls (pre ++ f :: post)).map (fun p => p.2)
          = (all_balls (pre ++ post)).map (fun p => p.2) := by
  have hskip : ∃ msg, process_file f = some ([msg], []) := by
    cases f with
    | malformed p => exact ⟨"Error reading " ++ p, rfl⟩
    | parsed p d =>
      cases hi : d.info with
      | none =>
        exact ⟨"Warning: info key is missing in match data from " ++ p,
          by simp [process_file, hi]⟩
      | some info =>
        simp only [skipCase, hi] at h
        cases hd : info.dates.getD [""] with
        | nil => rw [hd] at h; simp at h
        | cons dt rest =>
          rw [hd] at h
          have hteams : (info.teams.getD []).length < 2 := of_decide_eq_true h
          exact ⟨"Warning: Not enough teams found in match data from " ++ p,
            by simp [process_file, hi, hd, if_pos hteams]⟩
  refine ⟨hskip, ?_⟩
  intro pre post
  obtain ⟨msg, hmsg⟩ := hskip
  have hstep : all_balls (f :: post) =
      match all_balls post with
      | none => none
      | some (lgs, evs) => some (msg :: lgs, evs) := by
    show (match process_file f with
      | none => none
      | some (lg, ev) =>
        match all_balls post with
        | none => none
        | some (lgs, evs) => some (lg ++ lgs, ev ++ evs)) = _
    rw [hmsg]
    cases hq : all_balls post with
    | none => rfl
    | some p => cases p with | mk lgs evs => simp
  rw [all_balls_append pre (f :: post), all_balls_append pre post, hstep]
  cases hp : all_balls pre with
  | none => rfl
  | some ab =>
    cases ab with
    | mk a b =>
      cases hq : all_balls post with
      | none => rfl
      | some p => cases p with | mk c d => rfl

/-- Witness for C5 (amended): removing a skipped undecodable file leaves the
emitted rows unchanged. -/
theorem claimC5_witness :
    (all_balls ([okFile] ++ RawFile.malformed "dir/x.json" :: [okFile])).map
        (fun p => p.2)
      = (all_balls ([okFile] ++ [okFile])).map (fun p => p.2) :=
  (claimC5_skip_and_continue (RawFile.malformed "dir/x.json") (by decide)).2
    [okFile] [okFile]
